import Mathlib

namespace LbDocs

/-- JSON-like wire value; the serialized documents of the Action resource types are
objects whose leaves are strings (every scalar field in the source is a Go string). -/
inductive JVal where
  | null
  | str (s : String)
  | arr (elems : List JVal)
  | obj (fields : List (String × JVal))

/-- List of serialized object fields. -/
abbrev JObj := List (String × JVal)

/-- First value bound to key k in an object field list (Go json decoding looks keys up). -/
def jget (k : String) : JObj → Option JVal
  | [] => none
  | (k', v) :: fs => if k' = k then some v else jget k fs

/-- Field lookup on an object value. -/
def jfield (k : String) : JVal → Option JVal
  | .obj fs => jget k fs
  | _ => none

/-- Encode a string field without omitempty: always emitted. -/
def fStr (k s : String) : JObj := [(k, .str s)]

/-- Encode a string field with omitempty: dropped when empty, per Go encoding/json. -/
def fStrO (k s : String) : JObj := if s = "" then [] else [(k, .str s)]

/-- Encode an untagged pointer field: Go emits the field name with null for a nil pointer. -/
def fPtr (k : String) (enc : α → JVal) : Option α → JObj
  | none => [(k, .null)]
  | some x => [(k, enc x)]

/-- Encode a pointer field with omitempty: dropped when nil. -/
def fPtrO (k : String) (enc : α → JVal) : Option α → JObj
  | none => []
  | some x => [(k, enc x)]

/-- Encode a struct-typed field: Go always emits it (omitempty has no effect on structs). -/
def fObj (k : String) (v : JVal) : JObj := [(k, v)]

/-- Decode a string field: a missing key or null leaves the zero value. -/
def dStr : Option JVal → Option String
  | none => some ""
  | some .null => some ""
  | some (.str s) => some s
  | some _ => none

/-- Decode a pointer field: missing or null gives nil. -/
def dPtr (dec : JVal → Option α) : Option JVal → Option (Option α)
  | none => some none
  | some .null => some none
  | some v => (dec v).map some

/-- ConfigMapKeySelector, abstracted from the external k8s core/v1 type to the
fields its json wire uses: name (omitempty) and key (always emitted). -/
structure ConfigMapKeySelector where
  Name : String
  Key : String
deriving DecidableEq

/-- Serialize a ConfigMapKeySelector per its k8s json tags. -/
def marshalCMKS (c : ConfigMapKeySelector) : JVal :=
  .obj (fStrO "name" c.Name ++ fStr "key" c.Key)

/-- Deserialize a ConfigMapKeySelector. -/
def unmarshalCMKS : JVal → Option ConfigMapKeySelector
  | .obj fs => do
      let n ← dStr (jget "name" fs)
      let k ← dStr (jget "key" fs)
      pure ⟨n, k⟩
  | .null => some ⟨"", ""⟩
  | _ => none

/-- SecretKeySelector, abstracted from the external k8s core/v1 type to the
fields its json wire uses: name (omitempty) and key (always emitted). -/
structure SecretKeySelector where
  Name : String
  Key : String

/-- Serialize a SecretKeySelector per its k8s json tags. -/
def marshalSKS (c : SecretKeySelector) : JVal :=
  .obj (fStrO "name" c.Name ++ fStr "key" c.Key)

/-- Deserialize a SecretKeySelector. -/
def unmarshalSKS : JVal → Option SecretKeySelector
  | .obj fs => do
      let n ← dStr (jget "name" fs)
      let k ← dStr (jget "key" fs)
      pure ⟨n, k⟩
  | .null => some ⟨"", ""⟩
  | _ => none

/-- EnvVar, abstracted from the external k8s core/v1 type to its name field
(always emitted) and value field (omitempty). -/
structure EnvVar where
  Name : String
  Value : String

/-- Serialize an EnvVar per its k8s json tags. -/
def marshalEnvVar (e : EnvVar) : JVal :=
  .obj (fStr "name" e.Name ++ fStrO "value" e.Value)

/-- Deserialize an EnvVar. -/
def unmarshalEnvVar : JVal → Option EnvVar
  | .obj fs => do
      let n ← dStr (jget "name" fs)
      let v ← dStr (jget "value" fs)
      pure ⟨n, v⟩
  | .null => some ⟨"", ""⟩
  | _ => none

/-- Container, abstracted from the external k8s core/v1 Container type to the two
fields the source comments reference (name, image); name is always emitted and
image is omitempty, matching the k8s json tags. -/
structure CoreContainer where
  Name : String
  Image : String

/-- Serialize a CoreContainer. -/
def marshalCoreContainer (c : CoreContainer) : JVal :=
  .obj (fStr "name" c.Name ++ fStrO "image" c.Image)

/-- Deserialize a CoreContainer. -/
def unmarshalCoreContainer : JVal → Option CoreContainer
  | .obj fs => do
      let n ← dStr (jget "name" fs)
      let i ← dStr (jget "image" fs)
      pure ⟨n, i⟩
  | .null => some ⟨"", ""⟩
  | _ => none

/-- ObjectMeta, abstracted from the external k8s apimachinery type to name and
namespace (both omitempty strings). -/
structure ObjectMeta where
  Name : String
  Namespace : String

/-- Serialize an ObjectMeta. -/
def marshalObjectMeta (m : ObjectMeta) : JVal :=
  .obj (fStrO "name" m.Name ++ fStrO "namespace" m.Namespace)

/-- Deserialize an ObjectMeta. -/
def unmarshalObjectMeta : JVal → Option ObjectMeta
  | .obj fs => do
      let n ← dStr (jget "name" fs)
      let ns ← dStr (jget "namespace" fs)
      pure ⟨n, ns⟩
  | .null => some ⟨"", ""⟩
  | _ => none

/-- TypeMeta, abstracted from the external k8s apimachinery type: kind and
apiVersion, both omitempty strings, inlined at the top level of the document. -/
structure TypeMeta where
  Kind : String
  APIVersion : String

/-- Dependency record from action_types.go: an open type tag and an id. -/
structure Dependency where
  type : String
  ID : String

/-- Serialize a Dependency per its json tags (type, id; both omitempty). -/
def marshalDependency (d : Dependency) : JVal :=
  .obj (fStrO "type" d.type ++ fStrO "id" d.ID)

/-- Deserialize a Dependency. -/
def unmarshalDependency : JVal → Option Dependency
  | .obj fs => do
      let t ← dStr (jget "type" fs)
      let i ← dStr (jget "id" fs)
      pure ⟨t, i⟩
  | .null => some ⟨"", ""⟩
  | _ => none

/-- Schema from action_types.go: inline type and format, a registry reference
(json key registryKeyRef) and a ConfigMap key reference. -/
structure Schema where
  type : String
  Format : String
  RegistryRef : String
  ConfigMapKeyRef : Option ConfigMapKeySelector

/-- Serialize a Schema per its json tags. -/
def marshalSchema (s : Schema) : JVal :=
  .obj (fStrO "type" s.type ++ fStrO "format" s.Format ++
        fStrO "registryKeyRef" s.RegistryRef ++
        fPtrO "configMapKeyRef" marshalCMKS s.ConfigMapKeyRef)

/-- Deserialize a Schema. -/
def unmarshalSchema : JVal → Option Schema
  | .obj fs => do
      let t ← dStr (jget "type" fs)
      let f ← dStr (jget "format" fs)
      let r ← dStr (jget "registryKeyRef" fs)
      let c ← dPtr unmarshalCMKS (jget "configMapKeyRef" fs)
      pure ⟨t, f, r, c⟩
  | .null => some ⟨"", "", "", none⟩
  | _ => none

/-- Parameter from action_types.go lines 131 to 136: name, description, the
required flag declared as a plain string, and a schema. -/
structure Parameter where
  Name : String
  Description : String
  Required : String
  Schema : Schema

/-- The second, duplicate declaration of Parameter in action_types.go lines 139
to 144; its field list is textually identical to the first declaration. -/
structure ParameterDuplicate where
  Name : String
  Description : String
  Required : String
  Schema : Schema

/-- Serialize a Parameter per its json tags; the schema field is a struct, so Go
always emits it even though its tag carries omitempty. -/
def marshalParameter (p : Parameter) : JVal :=
  .obj (fStrO "name" p.Name ++ fStrO "description" p.Description ++
        fStrO "required" p.Required ++ fObj "schema" (marshalSchema p.Schema))

/-- Decode a struct-typed field: a missing key leaves the zero value; a null or
any other value is handed to the element decoder (which itself treats null as
the zero value, matching the Go no-op behavior). -/
def dObjF (dec : JVal → Option α) (dflt : α) : Option JVal → Option α
  | none => some dflt
  | some v => dec v

/-- Deserialize a Parameter. -/
def unmarshalParameter : JVal → Option Parameter
  | .obj fs => do
      let n ← dStr (jget "name" fs)
      let d ← dStr (jget "description" fs)
      let r ← dStr (jget "required" fs)
      let s ← dObjF unmarshalSchema ⟨"", "", "", none⟩ (jget "schema" fs)
      pure ⟨n, d, r, s⟩
  | .null => some ⟨"", "", "", ⟨"", "", "", none⟩⟩
  | _ => none

/-- ParameterBinding from action_types.go: a parameter name plus optional
ConfigMap and Secret key references. -/
structure ParameterBinding where
  Name : String
  ConfigMapKeyRef : Option ConfigMapKeySelector
  SecretKeyRef : Option SecretKeySelector

/-- The promoted json fields of an embedded ParameterBinding. -/
def parameterBindingFields (b : ParameterBinding) : JObj :=
  fStrO "name" b.Name ++ fPtrO "configMapKeyRef" marshalCMKS b.ConfigMapKeyRef ++
  fPtrO "secretKeyRef" marshalSKS b.SecretKeyRef

/-- Deserialize the promoted fields of an embedded ParameterBinding. -/
def unmarshalParameterBindingFields (fs : JObj) : Option ParameterBinding := do
  let n ← dStr (jget "name" fs)
  let c ← dPtr unmarshalCMKS (jget "configMapKeyRef" fs)
  let s ← dPtr unmarshalSKS (jget "secretKeyRef" fs)
  pure ⟨n, c, s⟩

/-- Element of the Endpoint parameters list: an inlined ParameterBinding plus a
string target (query or header). -/
structure EndpointParameter where
  ParameterBinding : ParameterBinding
  Target : String

/-- Serialize an EndpointParameter; the embedded binding is inlined. -/
def marshalEndpointParameter (p : EndpointParameter) : JVal :=
  .obj (parameterBindingFields p.ParameterBinding ++ fStrO "target" p.Target)

/-- Deserialize an EndpointParameter. -/
def unmarshalEndpointParameter : JVal → Option EndpointParameter
  | .obj fs => do
      let b ← unmarshalParameterBindingFields fs
      let t ← dStr (jget "target" fs)
      pure ⟨b, t⟩
  | .null => some ⟨⟨"", none, none⟩, ""⟩
  | _ => none

/-- Element of the Container parameters list: an inlined ParameterBinding plus a
target environment variable; the target is a struct so it is always emitted. -/
structure ContainerParameter where
  ParameterBinding : ParameterBinding
  Target : EnvVar

/-- Serialize a ContainerParameter. -/
def marshalContainerParameter (p : ContainerParameter) : JVal :=
  .obj (parameterBindingFields p.ParameterBinding ++
        fObj "target" (marshalEnvVar p.Target))

/-- Deserialize a ContainerParameter. -/
def unmarshalContainerParameter : JVal → Option ContainerParameter
  | .obj fs => do
      let b ← unmarshalParameterBindingFields fs
      let t ← dObjF unmarshalEnvVar ⟨"", ""⟩ (jget "target" fs)
      pure ⟨b, t⟩
  | .null => some ⟨⟨"", none, none⟩, ⟨"", ""⟩⟩
  | _ => none

/-- Encode an untagged slice field: Go emits the Go field name, null for a nil
slice and an array otherwise. -/
def fListN (k : String) (enc : α → JVal) : Option (List α) → JObj
  | none => [(k, .null)]
  | some xs => [(k, .arr (xs.map enc))]

/-- Encode a slice field with omitempty: dropped when nil or empty. -/
def fListO (k : String) (enc : α → JVal) : List α → JObj
  | [] => []
  | xs => [(k, .arr (xs.map enc))]

/-- Encode an untagged map field: Go emits the Go field name, null for a nil map
and an object otherwise; entries are modelled as an association list. -/
def fMapN (k : String) (enc : α → JVal) : Option (List (String × α)) → JObj
  | none => [(k, .null)]
  | some xs => [(k, .obj (xs.map (fun p => (p.1, enc p.2))))]

/-- Encode a string-to-string map field with omitempty: dropped when empty. -/
def fMapO (k : String) : List (String × String) → JObj
  | [] => []
  | xs => [(k, .obj (xs.map (fun p => (p.1, JVal.str p.2))))]

/-- Decode a list of values elementwise, failing if any element fails. -/
def decList (dec : JVal → Option α) : List JVal → Option (List α)
  | [] => some []
  | v :: vs => do
      let a ← dec v
      let as ← decList dec vs
      pure (a :: as)

/-- Decode the entries of an object into an association list. -/
def decKVList (dec : JVal → Option α) : JObj → Option (List (String × α))
  | [] => some []
  | (k, v) :: fs => do
      let a ← dec v
      let as ← decKVList dec fs
      pure ((k, a) :: as)

/-- Decode the entries of a string-to-string object. -/
def decStrEntries : JObj → Option (List (String × String))
  | [] => some []
  | (k, .str v) :: fs => (decStrEntries fs).map (fun r => (k, v) :: r)
  | _ => none

/-- Decode an untagged slice field: missing or null gives nil. -/
def dListN (dec : JVal → Option α) : Option JVal → Option (Option (List α))
  | none => some none
  | some .null => some none
  | some (.arr es) => (decList dec es).map some
  | some _ => none

/-- Decode an omitempty slice field: missing or null gives the empty list. -/
def dListO (dec : JVal → Option α) : Option JVal → Option (List α)
  | none => some []
  | some .null => some []
  | some (.arr es) => decList dec es
  | some _ => none

/-- Decode an untagged map field: missing or null gives nil. -/
def dMapN (dec : JVal → Option α) : Option JVal → Option (Option (List (String × α)))
  | none => some none
  | some .null => some none
  | some (.obj fs) => (decKVList dec fs).map some
  | some _ => none

/-- Decode an omitempty string-to-string map field. -/
def dMapO : Option JVal → Option (List (String × String))
  | none => some []
  | some .null => some []
  | some (.obj fs) => decStrEntries fs
  | some _ => none

/-- The Endpoint variant payload from action_types.go: a URL template string and
an untagged list of parameter bindings. -/
structure EndpointSpec where
  URL : String
  Parameters : Option (List EndpointParameter)

/-- Serialize an EndpointSpec. -/
def marshalEndpointSpec (e : EndpointSpec) : JVal :=
  .obj (fStrO "url" e.URL ++ fListN "Parameters" marshalEndpointParameter e.Parameters)

/-- Deserialize an EndpointSpec. -/
def unmarshalEndpointSpec : JVal → Option EndpointSpec
  | .obj fs => do
      let u ← dStr (jget "url" fs)
      let ps ← dListN unmarshalEndpointParameter (jget "Parameters" fs)
      pure ⟨u, ps⟩
  | .null => some ⟨"", none⟩
  | _ => none

/-- The Container variant payload from action_types.go: the embedded application
container (json key container, always emitted) and an untagged list of
parameter bindings targeting environment variables. -/
structure ContainerSpec where
  Container : CoreContainer
  Parameters : Option (List ContainerParameter)

/-- Serialize a ContainerSpec. -/
def marshalContainerSpec (c : ContainerSpec) : JVal :=
  .obj (fObj "container" (marshalCoreContainer c.Container) ++
        fListN "Parameters" marshalContainerParameter c.Parameters)

/-- Deserialize a ContainerSpec. -/
def unmarshalContainerSpec : JVal → Option ContainerSpec
  | .obj fs => do
      let c ← dObjF unmarshalCoreContainer ⟨"", ""⟩ (jget "container" fs)
      let ps ← dListN unmarshalContainerParameter (jget "Parameters" fs)
      pure ⟨c, ps⟩
  | .null => some ⟨⟨"", ""⟩, none⟩
  | _ => none

/-- The Dependency variant payload from action_types.go: a list of Dependency
records under the omitempty key dependencies. -/
structure DependencySpec where
  Dependencies : List Dependency

/-- Serialize a DependencySpec. -/
def marshalDependencySpec (d : DependencySpec) : JVal :=
  .obj (fListO "dependencies" marshalDependency d.Dependencies)

/-- Deserialize a DependencySpec. -/
def unmarshalDependencySpec : JVal → Option DependencySpec
  | .obj fs => do
      let ds ← dListO unmarshalDependency (jget "dependencies" fs)
      pure ⟨ds⟩
  | .null => some ⟨[]⟩
  | _ => none

/-- ImplementationSpec from action_types.go: three optional pointer variants
(Endpoint, Container, Dependency), none of which carries a json tag, so each
serializes under its Go field name and is emitted as null when nil. -/
structure ImplementationSpec where
  Endpoint : Option EndpointSpec
  Container : Option ContainerSpec
  Dependency : Option DependencySpec

/-- The promoted json fields of an inlined ImplementationSpec. -/
def implementationSpecFields (i : ImplementationSpec) : JObj :=
  fPtr "Endpoint" marshalEndpointSpec i.Endpoint ++
  fPtr "Container" marshalContainerSpec i.Container ++
  fPtr "Dependency" marshalDependencySpec i.Dependency

/-- Deserialize the promoted fields of an inlined ImplementationSpec. -/
def unmarshalImplementationSpecFields (fs : JObj) : Option ImplementationSpec := do
  let e ← dPtr unmarshalEndpointSpec (jget "Endpoint" fs)
  let c ← dPtr unmarshalContainerSpec (jget "Container" fs)
  let d ← dPtr unmarshalDependencySpec (jget "Dependency" fs)
  pure ⟨e, c, d⟩

/-- Deserialize an ImplementationSpec value, used for the meta pointer field. -/
def unmarshalImplementationSpec : JVal → Option ImplementationSpec
  | .obj fs => unmarshalImplementationSpecFields fs
  | .null => some ⟨none, none, none⟩
  | _ => none

/-- Serialize an ImplementationSpec value, used for the meta pointer field. -/
def marshalImplementationSpec (i : ImplementationSpec) : JVal :=
  .obj (implementationSpecFields i)

/-- The anonymous DataShape struct of ActionSpec in action_types.go: optional in
and out schemas plus a free-form string metadata map. -/
structure DataShape where
  In : Option Schema
  Out : Option Schema
  Metadata : List (String × String)

/-- Serialize a DataShape. -/
def marshalDataShape (d : DataShape) : JVal :=
  .obj (fPtrO "in" marshalSchema d.In ++ fPtrO "out" marshalSchema d.Out ++
        fMapO "metadata" d.Metadata)

/-- Deserialize a DataShape. -/
def unmarshalDataShape : JVal → Option DataShape
  | .obj fs => do
      let i ← dPtr unmarshalSchema (jget "in" fs)
      let o ← dPtr unmarshalSchema (jget "out" fs)
      let m ← dMapO (jget "metadata" fs)
      pure ⟨i, o, m⟩
  | .null => some ⟨none, none, []⟩
  | _ => none

/-- ActionSpec from action_types.go: the DataShape struct (untagged, so its key
is the Go field name DataShape), the untagged Parameters map, the inlined
ImplementationSpec and the optional meta implementation. -/
structure ActionSpec where
  DataShape : DataShape
  Parameters : Option (List (String × Parameter))
  Implementation : ImplementationSpec
  Meta : Option ImplementationSpec

/-- Serialize an ActionSpec. -/
def marshalActionSpec (s : ActionSpec) : JVal :=
  .obj (fObj "DataShape" (marshalDataShape s.DataShape) ++
        fMapN "Parameters" marshalParameter s.Parameters ++
        implementationSpecFields s.Implementation ++
        fPtrO "meta" marshalImplementationSpec s.Meta)

/-- Deserialize an ActionSpec. -/
def unmarshalActionSpec : JVal → Option ActionSpec
  | .obj fs => do
      let ds ← dObjF unmarshalDataShape ⟨none, none, []⟩ (jget "DataShape" fs)
      let ps ← dMapN unmarshalParameter (jget "Parameters" fs)
      let impl ← unmarshalImplementationSpecFields fs
      let me ← dPtr unmarshalImplementationSpec (jget "meta" fs)
      pure ⟨ds, ps, impl, me⟩
  | .null => some ⟨⟨none, none, []⟩, none, ⟨none, none, none⟩, none⟩
  | _ => none

/-- ActionStatus from action_types.go: currently carries no fields. -/
structure ActionStatus where

/-- Serialize an ActionStatus: the empty object. -/
def marshalActionStatus (_ : ActionStatus) : JVal := .obj []

/-- Deserialize an ActionStatus. -/
def unmarshalActionStatus : JVal → Option ActionStatus
  | .obj _ => some ⟨⟩
  | .null => some ⟨⟩
  | _ => none

/-- Action from action_types.go: inlined TypeMeta, object metadata, spec and
status; spec, status and metadata are struct-typed, so Go emits them even with
their omitempty tags. -/
structure Action where
  TypeMeta : TypeMeta
  Metadata : ObjectMeta
  Spec : ActionSpec
  Status : ActionStatus

/-- Serialize an Action to its wire document. -/
def marshalAction (a : Action) : JVal :=
  .obj (fStrO "kind" a.TypeMeta.Kind ++ fStrO "apiVersion" a.TypeMeta.APIVersion ++
        fObj "metadata" (marshalObjectMeta a.Metadata) ++
        fObj "spec" (marshalActionSpec a.Spec) ++
        fObj "status" (marshalActionStatus a.Status))

/-- Deserialize an Action from a wire document. -/
def unmarshalAction : JVal → Option Action
  | .obj fs => do
      let k ← dStr (jget "kind" fs)
      let v ← dStr (jget "apiVersion" fs)
      let m ← dObjF unmarshalObjectMeta ⟨"", ""⟩ (jget "metadata" fs)
      let s ← dObjF unmarshalActionSpec ⟨⟨none, none, []⟩, none, ⟨none, none, none⟩, none⟩
                (jget "spec" fs)
      let st ← dObjF unmarshalActionStatus ⟨⟩ (jget "status" fs)
      pure ⟨⟨k, v⟩, m, s, st⟩
  | .null => some ⟨⟨"", ""⟩, ⟨"", ""⟩, ⟨⟨none, none, []⟩, none, ⟨none, none, none⟩, none⟩, ⟨⟩⟩
  | _ => none

namespace P1

/-- The part_001 revision declares `type Metadata Metadata`: Metadata is defined
in terms of itself with no base representation, so no value of the type can be
built; rendered as an inductive type whose only constructor already requires a
Metadata. -/
inductive Metadata : Type where
  | mk : Metadata → Metadata

/-- Serialize a Metadata value; total by structural recursion (the type is empty,
so this code path can never actually run). -/
def marshalMetadata : Metadata → JVal
  | .mk m => marshalMetadata m

/-- The Container payload nested inside the HTTP variant of part_001: the
embedded application container, the parameter bindings and a Metadata field. -/
structure ContainerSpec where
  Container : CoreContainer
  Parameters : Option (List ContainerParameter)
  Metadata : Metadata

/-- Serialize the part_001 Container payload. -/
def marshalContainerSpec (c : ContainerSpec) : JVal :=
  .obj (fObj "container" (marshalCoreContainer c.Container) ++
        fListN "Parameters" marshalContainerParameter c.Parameters ++
        fObj "metadata" (marshalMetadata c.Metadata))

/-- The HTTP variant payload of part_001 BindingSpec: url, parameter bindings and
the nested optional Container payload (untagged pointer field). -/
structure HTTPSpec where
  URL : String
  Parameters : Option (List EndpointParameter)
  Container : Option ContainerSpec

/-- Serialize the part_001 HTTP payload. -/
def marshalHTTPSpec (h : HTTPSpec) : JVal :=
  .obj (fStrO "url" h.URL ++
        fListN "Parameters" marshalEndpointParameter h.Parameters ++
        fPtr "Container" marshalContainerSpec h.Container)

/-- The Dependency variant payload of part_001 BindingSpec: the dependency list
plus a Metadata field. -/
structure DependencySpec where
  Dependencies : List Dependency
  Metadata : Metadata

/-- Serialize the part_001 Dependency payload. -/
def marshalDependencySpec (d : DependencySpec) : JVal :=
  .obj (fListO "dependencies" marshalDependency d.Dependencies ++
        fObj "metadata" (marshalMetadata d.Metadata))

/-- BindingSpec from part_001: its top level holds exactly two untagged pointer
variants, HTTP and Dependency; the Container payload lives inside HTTP. -/
structure BindingSpec where
  HTTP : Option HTTPSpec
  Dependency : Option DependencySpec

/-- Serialize a part_001 BindingSpec. -/
def marshalBindingSpec (b : BindingSpec) : JVal :=
  .obj (fPtr "HTTP" marshalHTTPSpec b.HTTP ++
        fPtr "Dependency" marshalDependencySpec b.Dependency)

/-- The Container payload reachable from the top level of a BindingSpec: in
part_001 it is nested inside the HTTP variant. -/
def containerOf (b : BindingSpec) : Option ContainerSpec :=
  b.HTTP.bind (fun h => h.Container)

/-- Schema from part_001: like the action_types.go Schema plus a Metadata field. -/
structure Schema where
  type : String
  Format : String
  RegistryRef : String
  ConfigMapKeyRef : Option ConfigMapKeySelector
  Metadata : Metadata

/-- Serialize a part_001 Schema. -/
def marshalSchema (s : Schema) : JVal :=
  .obj (fStrO "type" s.type ++ fStrO "format" s.Format ++
        fStrO "registryKeyRef" s.RegistryRef ++
        fPtrO "configMapKeyRef" marshalCMKS s.ConfigMapKeyRef ++
        fObj "metadata" (marshalMetadata s.Metadata))

/-- Parameter from part_001: the action_types.go fields plus a deprecation
marker, also declared as a plain string with an omitempty tag. -/
structure Parameter where
  Name : String
  Description : String
  Required : String
  Deprecated : String
  Schema : Schema

/-- Serialize a part_001 Parameter. -/
def marshalParameter (p : Parameter) : JVal :=
  .obj (fStrO "name" p.Name ++ fStrO "description" p.Description ++
        fStrO "required" p.Required ++ fStrO "deprecated" p.Deprecated ++
        fObj "schema" (marshalSchema p.Schema))

/-- Message from part_001: the embedded ContentType (whose type is undeclared in
the source; modelled as a string, matching its contentType tag), a Schema and a
Metadata field. -/
structure Message where
  ContentType : String
  Schema : Schema
  Metadata : Metadata

/-- Serialize a part_001 Message. -/
def marshalMessage (m : Message) : JVal :=
  .obj (fStrO "contentType" m.ContentType ++
        fObj "schema" (marshalSchema m.Schema) ++
        fObj "metadata" (marshalMetadata m.Metadata))

/-- ActionSpec from part_001: produced and consumed messages, the untagged
Parameters map, and the binding and meta implementations (both BindingSpec). -/
structure ActionSpec where
  Produces : Option Message
  Consumes : Option Message
  Parameters : Option (List (String × Parameter))
  Binding : Option BindingSpec
  Meta : Option BindingSpec

/-- Serialize a part_001 ActionSpec. -/
def marshalActionSpec (s : ActionSpec) : JVal :=
  .obj (fPtrO "produces" marshalMessage s.Produces ++
        fPtrO "consumes" marshalMessage s.Consumes ++
        fMapN "Parameters" marshalParameter s.Parameters ++
        fPtrO "binding" marshalBindingSpec s.Binding ++
        fPtrO "meta" marshalBindingSpec s.Meta)

end P1

/-- Modelled from the spec: the validation error taxonomy of section 7. The
spec does not name the error raised when a Schema sets no data source and no
recognized primitive type, so MissingSchemaSource stands for that case. -/
inductive VError where
  | MissingBinding (path : String)
  | AmbiguousBinding (path : String)
  | UnknownParameterReference (path : String)
  | AmbiguousSchemaSource (path : String)
  | MissingSchemaSource (path : String)
  | MalformedDocument
deriving DecidableEq

/-- Number of populated implementation variants of an ImplementationSpec. -/
def populatedCount (i : ImplementationSpec) : Nat :=
  (if i.Endpoint.isSome then 1 else 0) + (if i.Container.isSome then 1 else 0) +
  (if i.Dependency.isSome then 1 else 0)

/-- Modelled from the spec: binding-variant validation. Exactly one variant must
be populated; zero populated variants is MissingBinding and two or more is
AmbiguousBinding, each reported at the given field path. -/
def validateImplementation (path : String) (i : ImplementationSpec) : List VError :=
  if populatedCount i = 0 then [.MissingBinding path]
  else if 2 ≤ populatedCount i then [.AmbiguousBinding path]
  else []

/-- Modelled from the spec: the recognized self-describing primitive type tags. -/
def recognizedPrimitive (t : String) : Bool :=
  t == "string" || t == "integer" || t == "boolean" || t == "number" || t == "object"

/-- Modelled from the spec: Schema data-source validation. Setting both
registryRef and configMapKeyRef is AmbiguousSchemaSource; setting neither is
permitted only when the inline type is a recognized primitive. -/
def validateSchema (path : String) (s : Schema) : List VError :=
  if s.RegistryRef ≠ "" ∧ s.ConfigMapKeyRef.isSome then [.AmbiguousSchemaSource path]
  else if s.RegistryRef = "" ∧ s.ConfigMapKeyRef = none ∧ recognizedPrimitive s.type = false
    then [.MissingSchemaSource path]
  else []

/-- Field path and referenced parameter name of every ParameterBinding in an
Endpoint payload. -/
def endpointRefs (pfx : String) (e : EndpointSpec) : List (String × String) :=
  match e.Parameters with
  | none => []
  | some ps => ps.enum.map
      (fun ip => (pfx ++ ".parameters[" ++ toString ip.1 ++ "]", ip.2.ParameterBinding.Name))

/-- Field path and referenced parameter name of every ParameterBinding in a
Container payload. -/
def containerRefs (pfx : String) (c : ContainerSpec) : List (String × String) :=
  match c.Parameters with
  | none => []
  | some ps => ps.enum.map
      (fun ip => (pfx ++ ".parameters[" ++ toString ip.1 ++ "]", ip.2.ParameterBinding.Name))

/-- All parameter references occurring inside the populated variants of an
ImplementationSpec, with their field paths; the Dependency variant declares no
parameter bindings in the source. -/
def implBindingRefs (pfx : String) (i : ImplementationSpec) : List (String × String) :=
  (match i.Endpoint with
   | none => []
   | some e => endpointRefs (pfx ++ ".endpoint") e) ++
  (match i.Container with
   | none => []
   | some c => containerRefs (pfx ++ ".container") c)

/-- Keys of the declared parameters mapping. -/
def paramKeys : Option (List (String × Parameter)) → List String
  | none => []
  | some l => l.map Prod.fst

/-- Modelled from the spec: every referenced parameter name must be a declared
parameters key; each violation yields UnknownParameterReference naming the
field path of the offending binding. -/
def validateParamRefs (keys : List String) (refs : List (String × String)) : List VError :=
  refs.filterMap (fun pn => if pn.2 ∈ keys then none else some (.UnknownParameterReference pn.1))

/-- Every Schema occurring in an ActionSpec, with its field path. -/
def collectSchemas (s : ActionSpec) : List (String × Schema) :=
  (match s.DataShape.In with
   | none => []
   | some sc => [("dataShape.in", sc)]) ++
  (match s.DataShape.Out with
   | none => []
   | some sc => [("dataShape.out", sc)]) ++
  (match s.Parameters with
   | none => []
   | some ps => ps.map (fun p => ("parameters." ++ p.1 ++ ".schema", p.2.Schema)))

/-- Modelled from the spec: full one-pass validation of an ActionSpec. All rule
families are checked and their error lists concatenated: the binding variants,
the parameter references of binding, the same two checks for the optional meta
implementation, and every Schema data source. -/
def validateActionSpec (s : ActionSpec) : List VError :=
  validateImplementation "binding" s.Implementation ++
  validateParamRefs (paramKeys s.Parameters) (implBindingRefs "binding" s.Implementation) ++
  (match s.Meta with
   | none => []
   | some m =>
      validateImplementation "meta" m ++
      validateParamRefs (paramKeys s.Parameters) (implBindingRefs "meta" m)) ++
  (collectSchemas s).flatMap (fun ps => validateSchema ps.1 ps.2)

/-- Modelled from the spec: validation of a whole Action is validation of its
spec; it reads nothing but the document value and builds only an error list. -/
def validateAction (a : Action) : List VError :=
  validateActionSpec a.Spec

/-- Modelled from the spec: parse and validate a serialized document. An
unparseable document is MalformedDocument; a parsed document is either returned
whole (no errors) or rejected with the complete error list, never both. -/
def parseAndValidate (d : JVal) : Except (List VError) Action :=
  match unmarshalAction d with
  | none => .error [.MalformedDocument]
  | some a =>
      match validateAction a with
      | [] => .ok a
      | es => .error es

/-- Top-level keys of an object document. -/
def objKeys : JVal → List String
  | .obj fs => fs.map Prod.fst
  | _ => []

/-- Forgetting the record wrapper of an ImplementationSpec: the three optional
variant payloads, in source order. -/
def implToProd (i : ImplementationSpec) :
    Option EndpointSpec × Option ContainerSpec × Option DependencySpec :=
  (i.Endpoint, i.Container, i.Dependency)

/-- The evident field-for-field map between the two duplicate Parameter
declarations of action_types.go. -/
def parameterToDuplicate (p : Parameter) : ParameterDuplicate :=
  ⟨p.Name, p.Description, p.Required, p.Schema⟩

/-- A valid serialized Action document that is not in the image of marshalAction:
it populates only the url of the Endpoint variant. -/
def c4doc : JVal :=
  .obj [("spec", .obj [("Endpoint", .obj [("url", .str "http://example.com")])])]

/-- The Action value that c4doc deserializes to. -/
def c4action : Action :=
  ⟨⟨"", ""⟩, ⟨"", ""⟩,
   ⟨⟨none, none, []⟩, none, ⟨some ⟨"http://example.com", none⟩, none, none⟩, none⟩, ⟨⟩⟩

/-- An ActionSpec whose endpoint binding references the undeclared parameter
name missing. -/
def c2spec : ActionSpec :=
  ⟨⟨none, none, []⟩, none,
   ⟨some ⟨"http://example.com", some [⟨⟨"missing", none, none⟩, "query"⟩]⟩, none, none⟩, none⟩

/-- A serialized document that parses and validates with no errors (only the
Dependency variant is populated). -/
def c5docOk : JVal :=
  .obj [("spec", .obj [("Dependency", .obj [])])]

/-- The Action value that c5docOk deserializes to. -/
def c5actionOk : Action :=
  ⟨⟨"", ""⟩, ⟨"", ""⟩, ⟨⟨none, none, []⟩, none, ⟨none, none, some ⟨[]⟩⟩, none⟩, ⟨⟩⟩

/-- A serialized document carrying two independent defects: two populated
binding variants and an unknown parameter reference. -/
def c5docBad : JVal :=
  .obj [("spec", .obj
    [("Endpoint", .obj [("url", .str "http://e"),
                        ("Parameters", .arr [.obj [("name", .str "missing")]])]),
     ("Container", .obj [])])]

/-- The Action value that c5docBad deserializes to. -/
def c5actionBad : Action :=
  ⟨⟨"", ""⟩, ⟨"", ""⟩,
   ⟨⟨none, none, []⟩, none,
    ⟨some ⟨"http://e", some [⟨⟨"missing", none, none⟩, ""⟩]⟩,
     some ⟨⟨"", ""⟩, none⟩, none⟩, none⟩, ⟨⟩⟩

/-- An Action populating every field family, used to exhibit the exact wire keys
produced by serialization. -/
def c7action : Action :=
  ⟨⟨"Action", "lb.org/v1"⟩, ⟨"demo", "ns"⟩,
   ⟨⟨some ⟨"", "", "http://registry/s1", none⟩, none, []⟩,
    some [("p", ⟨"p", "", "true", ⟨"string", "", "", some ⟨"cm", "k"⟩⟩⟩)],
    ⟨some ⟨"http://svc/api", some [⟨⟨"p", some ⟨"cm", "k"⟩, some ⟨"sec", "sk"⟩⟩, "query"⟩]⟩,
     some ⟨⟨"c", "img"⟩, some [⟨⟨"p", none, none⟩, ⟨"P_ENV", "v"⟩⟩]⟩,
     some ⟨[⟨"library", "dep1"⟩]⟩⟩,
    some ⟨none, none, none⟩⟩, ⟨⟩⟩

/-- A part_001 ActionSpec populating the binding field with an HTTP payload. -/
def c7p1spec : P1.ActionSpec :=
  ⟨none, none, none, some ⟨some ⟨"http://svc", none, none⟩, none⟩, none⟩

/-- Decoding a list of encoded elements recovers the elements. -/
theorem decList_map (dec : JVal → Option α) (enc : α → JVal)
    (h : ∀ x, dec (enc x) = some x) (xs : List α) :
    decList dec (xs.map enc) = some xs := by
  induction xs with
  | nil => rfl
  | cons x xs ih => simp [decList, h, ih]

/-- Decoding the encoded entries of an association list recovers the entries. -/
theorem decKVList_map (dec : JVal → Option α) (enc : α → JVal)
    (h : ∀ x, dec (enc x) = some x) (m : List (String × α)) :
    decKVList dec (m.map (fun p => (p.1, enc p.2))) = some m := by
  induction m with
  | nil => rfl
  | cons p m ih => simp [decKVList, h, ih]

/-- Decoding an encoded string-to-string map recovers the entries. -/
theorem decStrEntries_map (m : List (String × String)) :
    decStrEntries (m.map (fun p => (p.1, JVal.str p.2))) = some m := by
  induction m with
  | nil => rfl
  | cons p m ih => simp [decStrEntries, ih]

/-- A missing pointer field decodes to nil. -/
theorem dPtr_none (dec : JVal → Option α) : dPtr dec none = some none := rfl

/-- A null pointer field decodes to nil. -/
theorem dPtr_null (dec : JVal → Option α) : dPtr dec (some .null) = some none := rfl

/-- Decoding a pointer field that holds an encoded object recovers the value. -/
theorem dPtr_marshal {dec : JVal → Option α} {enc : α → JVal}
    (hshape : ∀ x, ∃ fs, enc x = JVal.obj fs) (h : ∀ x, dec (enc x) = some x) (x : α) :
    dPtr dec (some (enc x)) = some (some x) := by
  obtain ⟨fs, hfs⟩ := hshape x
  rw [hfs]
  show (dec (JVal.obj fs)).map some = some (some x)
  rw [← hfs, h]
  rfl

/-- A marshalled ConfigMapKeySelector is an object. -/
theorem marshalCMKS_shape (x : ConfigMapKeySelector) : ∃ fs, marshalCMKS x = JVal.obj fs :=
  ⟨_, rfl⟩

/-- A marshalled SecretKeySelector is an object. -/
theorem marshalSKS_shape (x : SecretKeySelector) : ∃ fs, marshalSKS x = JVal.obj fs :=
  ⟨_, rfl⟩

/-- A marshalled Schema is an object. -/
theorem marshalSchema_shape (x : Schema) : ∃ fs, marshalSchema x = JVal.obj fs :=
  ⟨_, rfl⟩

/-- A marshalled EndpointSpec is an object. -/
theorem marshalEndpointSpec_shape (x : EndpointSpec) : ∃ fs, marshalEndpointSpec x = JVal.obj fs :=
  ⟨_, rfl⟩

/-- A marshalled ContainerSpec is an object. -/
theorem marshalContainerSpec_shape (x : ContainerSpec) :
    ∃ fs, marshalContainerSpec x = JVal.obj fs :=
  ⟨_, rfl⟩

/-- A marshalled DependencySpec is an object. -/
theorem marshalDependencySpec_shape (x : DependencySpec) :
    ∃ fs, marshalDependencySpec x = JVal.obj fs :=
  ⟨_, rfl⟩

/-- Deserializing a serialized ConfigMapKeySelector recovers the value. -/
theorem unmarshal_marshal_cmks (c : ConfigMapKeySelector) :
    unmarshalCMKS (marshalCMKS c) = some c := by
  obtain ⟨n, k⟩ := c
  by_cases hn : n = "" <;>
    simp [marshalCMKS, unmarshalCMKS, fStrO, fStr, hn, jget, dStr]

/-- Deserializing a serialized SecretKeySelector recovers the value. -/
theorem unmarshal_marshal_sks (c : SecretKeySelector) :
    unmarshalSKS (marshalSKS c) = some c := by
  obtain ⟨n, k⟩ := c
  by_cases hn : n = "" <;>
    simp [marshalSKS, unmarshalSKS, fStrO, fStr, hn, jget, dStr]

/-- Deserializing a serialized EnvVar recovers the value. -/
theorem unmarshal_marshal_envVar (e : EnvVar) :
    unmarshalEnvVar (marshalEnvVar e) = some e := by
  obtain ⟨n, v⟩ := e
  by_cases hv : v = "" <;>
    simp [marshalEnvVar, unmarshalEnvVar, fStrO, fStr, hv, jget, dStr]

/-- Deserializing a serialized CoreContainer recovers the value. -/
theorem unmarshal_marshal_coreContainer (c : CoreContainer) :
    unmarshalCoreContainer (marshalCoreContainer c) = some c := by
  obtain ⟨n, i⟩ := c
  by_cases hi : i = "" <;>
    simp [marshalCoreContainer, unmarshalCoreContainer, fStrO, fStr, hi, jget, dStr]

/-- Deserializing a serialized ObjectMeta recovers the value. -/
theorem unmarshal_marshal_objectMeta (m : ObjectMeta) :
    unmarshalObjectMeta (marshalObjectMeta m) = some m := by
  obtain ⟨n, ns⟩ := m
  by_cases hn : n = "" <;> by_cases hns : ns = "" <;>
    simp [marshalObjectMeta, unmarshalObjectMeta, fStrO, hn, hns, jget, dStr]

/-- Deserializing a serialized Dependency recovers the value. -/
theorem unmarshal_marshal_dependency (d : Dependency) :
    unmarshalDependency (marshalDependency d) = some d := by
  obtain ⟨t, i⟩ := d
  by_cases ht : t = "" <;> by_cases hi : i = "" <;>
    simp [marshalDependency, unmarshalDependency, fStrO, ht, hi, jget, dStr]

/-- Deserializing a serialized Schema recovers the value. -/
theorem unmarshal_marshal_schema (s : Schema) :
    unmarshalSchema (marshalSchema s) = some s := by
  obtain ⟨t, f, r, c⟩ := s
  by_cases ht : t = "" <;> by_cases hf : f = "" <;> by_cases hr : r = "" <;> cases c <;>
    simp [marshalSchema, unmarshalSchema, fStrO, fPtrO, ht, hf, hr, jget, dStr, dPtr_none, dPtr_null,
          dPtr_marshal marshalCMKS_shape unmarshal_marshal_cmks]

/-- Deserializing a serialized Parameter recovers the value. -/
theorem unmarshal_marshal_parameter (p : Parameter) :
    unmarshalParameter (marshalParameter p) = some p := by
  obtain ⟨n, d, r, s⟩ := p
  by_cases hn : n = "" <;> by_cases hd : d = "" <;> by_cases hr : r = "" <;>
    simp [marshalParameter, unmarshalParameter, fStrO, fObj, hn, hd, hr, jget, dStr,
          dObjF, unmarshal_marshal_schema]

/-- Deserializing a serialized EndpointParameter recovers the value. -/
theorem unmarshal_marshal_endpointParameter (p : EndpointParameter) :
    unmarshalEndpointParameter (marshalEndpointParameter p) = some p := by
  obtain ⟨⟨n, c, s⟩, t⟩ := p
  by_cases hn : n = "" <;> cases c <;> cases s <;> by_cases ht : t = "" <;>
    simp [marshalEndpointParameter, unmarshalEndpointParameter,
          unmarshalParameterBindingFields, parameterBindingFields, fStrO, fPtrO,
          hn, ht, jget, dStr, dPtr_none, dPtr_null,
          dPtr_marshal marshalCMKS_shape unmarshal_marshal_cmks,
          dPtr_marshal marshalSKS_shape unmarshal_marshal_sks]

/-- Deserializing a serialized ContainerParameter recovers the value. -/
theorem unmarshal_marshal_containerParameter (p : ContainerParameter) :
    unmarshalContainerParameter (marshalContainerParameter p) = some p := by
  obtain ⟨⟨n, c, s⟩, t⟩ := p
  by_cases hn : n = "" <;> cases c <;> cases s <;>
    simp [marshalContainerParameter, unmarshalContainerParameter,
          unmarshalParameterBindingFields, parameterBindingFields, fStrO, fPtrO, fObj,
          hn, jget, dStr, dPtr_none, dPtr_null, dObjF, unmarshal_marshal_envVar,
          dPtr_marshal marshalCMKS_shape unmarshal_marshal_cmks,
          dPtr_marshal marshalSKS_shape unmarshal_marshal_sks]

/-- Deserializing a serialized EndpointSpec recovers the value. -/
theorem unmarshal_marshal_endpointSpec (e : EndpointSpec) :
    unmarshalEndpointSpec (marshalEndpointSpec e) = some e := by
  obtain ⟨u, ps⟩ := e
  by_cases hu : u = "" <;> cases ps <;>
    simp [marshalEndpointSpec, unmarshalEndpointSpec, fStrO, fListN, hu, jget, dStr,
          dListN, decList_map unmarshalEndpointParameter marshalEndpointParameter
            unmarshal_marshal_endpointParameter]

/-- Deserializing a serialized ContainerSpec recovers the value. -/
theorem unmarshal_marshal_containerSpec (c : ContainerSpec) :
    unmarshalContainerSpec (marshalContainerSpec c) = some c := by
  obtain ⟨cc, ps⟩ := c
  cases ps <;>
    simp [marshalContainerSpec, unmarshalContainerSpec, fObj, fListN, jget, dObjF,
          unmarshal_marshal_coreContainer, dListN,
          decList_map unmarshalContainerParameter marshalContainerParameter
            unmarshal_marshal_containerParameter]

/-- Deserializing a serialized DependencySpec recovers the value. -/
theorem unmarshal_marshal_dependencySpec (d : DependencySpec) :
    unmarshalDependencySpec (marshalDependencySpec d) = some d := by
  obtain ⟨ds⟩ := d
  cases ds <;>
    simp [marshalDependencySpec, unmarshalDependencySpec, fListO, jget, dListO,
          decList, unmarshal_marshal_dependency,
          decList_map unmarshalDependency marshalDependency unmarshal_marshal_dependency]

/-- Deserializing the serialized promoted fields of an ImplementationSpec
recovers the value. -/
theorem unmarshal_marshal_implFields (i : ImplementationSpec) :
    unmarshalImplementationSpecFields (implementationSpecFields i) = some i := by
  obtain ⟨e, c, d⟩ := i
  cases e <;> cases c <;> cases d <;>
    simp [implementationSpecFields, unmarshalImplementationSpecFields, fPtr, jget, dPtr_none, dPtr_null,
          dPtr_marshal marshalEndpointSpec_shape unmarshal_marshal_endpointSpec,
          dPtr_marshal marshalContainerSpec_shape unmarshal_marshal_containerSpec,
          dPtr_marshal marshalDependencySpec_shape unmarshal_marshal_dependencySpec]

/-- A marshalled ImplementationSpec is an object. -/
theorem marshalImplementationSpec_shape (x : ImplementationSpec) :
    ∃ fs, marshalImplementationSpec x = JVal.obj fs :=
  ⟨_, rfl⟩

/-- Deserializing a serialized ImplementationSpec value recovers the value. -/
theorem unmarshal_marshal_implementationSpec (i : ImplementationSpec) :
    unmarshalImplementationSpec (marshalImplementationSpec i) = some i := by
  show unmarshalImplementationSpecFields (implementationSpecFields i) = some i
  exact unmarshal_marshal_implFields i

/-- Deserializing a serialized DataShape recovers the value. -/
theorem unmarshal_marshal_dataShape (d : DataShape) :
    unmarshalDataShape (marshalDataShape d) = some d := by
  obtain ⟨i, o, m⟩ := d
  cases i <;> cases o <;> cases m <;>
    simp [marshalDataShape, unmarshalDataShape, fPtrO, fMapO, jget, dPtr_none, dPtr_null, dMapO,
          decStrEntries, decStrEntries_map,
          dPtr_marshal marshalSchema_shape unmarshal_marshal_schema]

/-- Deserializing a serialized ActionSpec recovers the value. -/
theorem unmarshal_marshal_actionSpec (s : ActionSpec) :
    unmarshalActionSpec (marshalActionSpec s) = some s := by
  obtain ⟨ds, ps, ⟨e, c, d⟩, me⟩ := s
  cases ps <;> cases e <;> cases c <;> cases d <;> cases me <;>
    simp [marshalActionSpec, unmarshalActionSpec, implementationSpecFields,
          unmarshalImplementationSpecFields,
          fObj, fMapN, fPtr, fPtrO, jget, dObjF, dMapN, dPtr_none, dPtr_null,
          unmarshal_marshal_dataShape,
          decKVList_map unmarshalParameter marshalParameter unmarshal_marshal_parameter,
          dPtr_marshal marshalEndpointSpec_shape unmarshal_marshal_endpointSpec,
          dPtr_marshal marshalContainerSpec_shape unmarshal_marshal_containerSpec,
          dPtr_marshal marshalDependencySpec_shape unmarshal_marshal_dependencySpec,
          dPtr_marshal marshalImplementationSpec_shape unmarshal_marshal_implementationSpec]

/-- Deserializing a serialized Action recovers the value: deserialization is a
retraction of serialization. -/
theorem unmarshal_marshal_action (a : Action) :
    unmarshalAction (marshalAction a) = some a := by
  obtain ⟨⟨k, v⟩, m, s, st⟩ := a
  by_cases hk : k = "" <;> by_cases hv : v = "" <;>
    simp [marshalAction, unmarshalAction, fStrO, fObj, hk, hv, jget, dStr, dObjF,
          marshalActionStatus, unmarshalActionStatus,
          unmarshal_marshal_objectMeta, unmarshal_marshal_actionSpec]

/-- The Metadata type of the part_001 revision has no values: its declaration
refers only to itself. -/
theorem p1_metadata_empty : P1.Metadata → False
  | .mk m => p1_metadata_empty m

/-- C1: for every ActionSpec, validation of the binding requires exactly one of
the three variants to be populated: with zero populated variants it returns
exactly MissingBinding, with one it accepts, and with two or more it returns
exactly AmbiguousBinding. -/
theorem c1_binding_validation_trichotomy (s : ActionSpec) :
    (populatedCount s.Implementation = 0 ∧
      validateImplementation "binding" s.Implementation = [VError.MissingBinding "binding"]) ∨
    (populatedCount s.Implementation = 1 ∧
      validateImplementation "binding" s.Implementation = []) ∨
    (2 ≤ populatedCount s.Implementation ∧
      validateImplementation "binding" s.Implementation = [VError.AmbiguousBinding "binding"]) := by
  obtain ⟨ds, ps, ⟨e, c, d⟩, me⟩ := s
  cases e <;> cases c <;> cases d <;>
    simp [populatedCount, validateImplementation]

/-- C2: every ParameterBinding occurring inside a populated binding variant
whose name is not a key of the parameters mapping makes validation return
UnknownParameterReference naming the field path of that binding. -/
theorem c2_unknown_parameter_reference (s : ActionSpec) (p n : String)
    (hocc : (p, n) ∈ implBindingRefs "binding" s.Implementation)
    (hmiss : n ∉ paramKeys s.Parameters) :
    VError.UnknownParameterReference p ∈ validateActionSpec s := by
  have h1 : VError.UnknownParameterReference p ∈
      validateParamRefs (paramKeys s.Parameters) (implBindingRefs "binding" s.Implementation) := by
    unfold validateParamRefs
    exact List.mem_filterMap.mpr ⟨(p, n), hocc, by simp [hmiss]⟩
  unfold validateActionSpec
  simp only [List.mem_append]
  tauto

/-- Witness for C2 at a concrete ActionSpec: the endpoint binding references the
undeclared name missing and validation reports it at its field path. -/
theorem c2_unknown_parameter_reference_witness :
    VError.UnknownParameterReference "binding.endpoint.parameters[0]" ∈
      validateActionSpec c2spec :=
  c2_unknown_parameter_reference c2spec "binding.endpoint.parameters[0]" "missing"
    (by decide) (by decide)

/-- C3: a Schema setting both registryRef and configMapKeyRef fails validation
with exactly AmbiguousSchemaSource; a Schema setting neither is accepted
exactly when its inline type is a recognized primitive. -/
theorem c3_schema_source_validation (s : Schema) (path : String) :
    (s.RegistryRef ≠ "" → s.ConfigMapKeyRef.isSome = true →
      validateSchema path s = [VError.AmbiguousSchemaSource path]) ∧
    (s.RegistryRef = "" → s.ConfigMapKeyRef = none →
      (validateSchema path s = [] ↔ recognizedPrimitive s.type = true)) := by
  constructor
  · intro hr hc
    simp [validateSchema, hr, hc]
  · intro hr hc
    simp only [validateSchema, hr, hc]
    cases hp : recognizedPrimitive s.type <;> simp [hp]

/-- Witness for C3 at concrete Schemas: one with both references set, one
inline primitive schema with neither reference set. -/
theorem c3_schema_source_validation_witness :
    validateSchema "s" ⟨"", "", "http://registry", some ⟨"", "k"⟩⟩ =
      [VError.AmbiguousSchemaSource "s"] ∧
    (validateSchema "s" ⟨"string", "", "", none⟩ = [] ↔
      recognizedPrimitive "string" = true) :=
  ⟨(c3_schema_source_validation ⟨"", "", "http://registry", some ⟨"", "k"⟩⟩ "s").1
      (by decide) rfl,
   (c3_schema_source_validation ⟨"string", "", "", none⟩ "s").2 rfl rfl⟩

/-- C5: parsing and validating a document never yields a partially validated
Action: an accepted Action has an empty error list, every rejection carries a
nonempty error list, and a rejected parseable document is reported with its
complete error list, not a truncated one. -/
theorem c5_validation_all_or_nothing (d : JVal) :
    (∀ a, parseAndValidate d = .ok a → validateAction a = []) ∧
    (∀ es, parseAndValidate d = .error es → es ≠ []) ∧
    (∀ a, unmarshalAction d = some a → validateAction a ≠ [] →
      parseAndValidate d = .error (validateAction a)) := by
  refine ⟨?_, ?_, ?_⟩
  · intro a ha
    unfold parseAndValidate at ha
    split at ha
    · simp at ha
    · rename_i a0 h0
      split at ha
      · rename_i hv
        injection ha with h
        subst h
        exact hv
      · simp at ha
  · intro es ha
    unfold parseAndValidate at ha
    split at ha
    · injection ha with h
      subst h
      simp
    · split at ha
      · simp at ha
      · injection ha with h
        subst h
        assumption
  · intro a ha hv
    unfold parseAndValidate
    rw [ha]
    show (match validateAction a with
          | [] => Except.ok a
          | es => Except.error es) = Except.error (validateAction a)
    cases hval : validateAction a with
    | nil => exact absurd hval hv
    | cons x xs => rfl

/-- Witness for C5: a document accepted with zero errors, a malformed document
rejected with a nonempty list, and a document with two defects rejected with
its full two-element error list. -/
theorem c5_validation_all_or_nothing_witness :
    validateAction c5actionOk = [] ∧
    [VError.MalformedDocument] ≠ ([] : List VError) ∧
    parseAndValidate c5docBad = .error (validateAction c5actionBad) := by
  refine ⟨(c5_validation_all_or_nothing c5docOk).1 c5actionOk rfl,
          (c5_validation_all_or_nothing (JVal.str "x")).2.1 [VError.MalformedDocument] rfl,
          (c5_validation_all_or_nothing c5docBad).2.2 c5actionBad rfl ?_⟩
  intro h
  rw [show validateAction c5actionBad =
        [VError.AmbiguousBinding "binding",
         VError.UnknownParameterReference "binding.endpoint.parameters[0]"] from rfl] at h
  exact List.noConfusion h

/-- C8: validation is a deterministic pure function of the document value: equal
inputs give equal outputs, both for validation of an Action value and for the
whole parse-and-validate pipeline. -/
theorem c8_validation_deterministic :
    (∀ a b : Action, a = b → validateAction a = validateAction b) ∧
    (∀ d e : JVal, d = e → parseAndValidate d = parseAndValidate e) :=
  ⟨fun _ _ h => h ▸ rfl, fun _ _ h => h ▸ rfl⟩

/-- Witness for C8 at concrete inputs. -/
theorem c8_validation_deterministic_witness :
    validateAction c5actionOk = validateAction c5actionOk ∧
    parseAndValidate c5docOk = parseAndValidate c5docOk :=
  ⟨c8_validation_deterministic.1 c5actionOk c5actionOk rfl,
   c8_validation_deterministic.2 c5docOk c5docOk rfl⟩

/-- C9: action_types.go declares Parameter twice with identical fields (the two
declarations are in field-preserving bijection), and the self-referential
Metadata alias of part_001 has no values, so no value exists for the
Metadata-typed fields of Message, Schema and the binding variant payloads of
that revision. -/
theorem c9_duplicate_parameter_and_empty_metadata :
    Function.Bijective parameterToDuplicate ∧
    (∀ p : Parameter, (parameterToDuplicate p).Name = p.Name ∧
      (parameterToDuplicate p).Description = p.Description ∧
      (parameterToDuplicate p).Required = p.Required ∧
      (parameterToDuplicate p).Schema = p.Schema) ∧
    IsEmpty P1.Metadata ∧ IsEmpty P1.Message ∧ IsEmpty P1.Schema ∧
    IsEmpty P1.ContainerSpec ∧ IsEmpty P1.DependencySpec := by
  refine ⟨⟨fun a b h => ?_, fun q => ⟨⟨q.Name, q.Description, q.Required, q.Schema⟩, rfl⟩⟩,
          fun p => ⟨rfl, rfl, rfl, rfl⟩,
          ⟨fun m => p1_metadata_empty m⟩,
          ⟨fun m => p1_metadata_empty m.Metadata⟩,
          ⟨fun m => p1_metadata_empty m.Metadata⟩,
          ⟨fun m => p1_metadata_empty m.Metadata⟩,
          ⟨fun m => p1_metadata_empty m.Metadata⟩⟩
  cases a
  cases b
  simpa [parameterToDuplicate] using h

/-- C10 counterexample: the Deprecated half of the claim fails. In the part_001
revision no Parameter value exists at all (its Schema carries the self
referential Metadata), so no deserialization function into that revision can
accept any document, let alone accept every string value for the deprecated
field; in particular no deserializer maps any document, such as one carrying
deprecated true, to a Parameter value. -/
theorem c10_deprecated_counterexample :
    IsEmpty P1.Parameter ∧
    IsEmpty { f : JVal → Option P1.Parameter // ∃ d p, f d = some p } := by
  refine ⟨⟨fun p => p1_metadata_empty p.Schema.Metadata⟩, ⟨?_⟩⟩
  rintro ⟨f, d, p, h⟩
  exact p1_metadata_empty p.Schema.Metadata

/-- C10 amended: the required flag of the action_types.go Parameter is a
free-form optional string at the interface: deserialization accepts every
string value for it, with the given string stored unchanged, and accepts its
absence. The part_001 revision declares Deprecated with the same optional
string shape, but no Parameter value of that revision can be constructed (the
Metadata defect), so deserialization of that revision accepts nothing. -/
theorem c10_required_free_form_string (s : String) :
    unmarshalParameter (.obj [("required", .str s)]) =
      some ⟨"", "", s, ⟨"", "", "", none⟩⟩ ∧
    unmarshalParameter (.obj []) = some ⟨"", "", "", ⟨"", "", "", none⟩⟩ ∧
    IsEmpty P1.Parameter := by
  refine ⟨?_, rfl, ⟨fun p => p1_metadata_empty p.Schema.Metadata⟩⟩
  simp [unmarshalParameter, jget, dStr, dObjF, unmarshalSchema]

/-- C4 counterexample: c4doc is a valid serialized Action document (it parses,
and validates with zero errors), yet serializing its parse emits the key
Container under spec, a key c4doc does not contain; a document equal to c4doc
field for field up to key reordering would contain the same keys at the same
paths, so serialize applied after deserialize does not return c4doc up to key
ordering. -/
theorem c4_roundtrip_counterexample :
    unmarshalAction c4doc = some c4action ∧
    validateAction c4action = [] ∧
    jfield "Container" ((jfield "spec" (marshalAction c4action)).getD .null) = some .null ∧
    jfield "Container" ((jfield "spec" c4doc).getD .null) = none :=
  ⟨rfl, rfl, rfl, rfl⟩

/-- C4 amended: round-trip fidelity holds in the opposite composition and hence
on canonical documents: deserializing a serialized Action recovers the Action
exactly, so serialize after deserialize is the identity on every document in
the image of serialization; it is not the identity on every valid document,
because Go omitempty drops explicitly empty fields and untagged fields are
always re-emitted. -/
theorem c4_roundtrip_amended (a : Action) :
    unmarshalAction (marshalAction a) = some a ∧
    (unmarshalAction (marshalAction a)).map marshalAction = some (marshalAction a) := by
  refine ⟨unmarshal_marshal_action a, ?_⟩
  rw [unmarshal_marshal_action a]
  rfl

/-- C6 counterexample: in the part_001 revision, whose ActionSpec names the
binding field, the Container variant is not independently selectable at the top
level of the binding: no BindingSpec value has a populated Container payload
while the HTTP variant is unpopulated, because Container is nested inside the
HTTP payload. -/
theorem c6_container_not_top_level :
    IsEmpty { b : P1.BindingSpec // b.HTTP = none ∧ (P1.containerOf b).isSome = true } := by
  constructor
  rintro ⟨b, h1, h2⟩
  simp [P1.containerOf, h1] at h2

/-- C6 amended: in action_types.go the binding structure ImplementationSpec is
exactly the product of three independent optional variants with the stated
payloads, each selectable alone; in the part_001 revision the top level of
BindingSpec holds only the HTTP and Dependency variants and the Container
payload is nested inside HTTP, so Container is not independently selectable at
the top level there. -/
theorem c6_binding_variants_amended :
    Function.Bijective implToProd ∧
    (∃ i : ImplementationSpec,
      i.Endpoint.isSome = true ∧ i.Container = none ∧ i.Dependency = none) ∧
    (∃ i : ImplementationSpec,
      i.Container.isSome = true ∧ i.Endpoint = none ∧ i.Dependency = none) ∧
    (∃ i : ImplementationSpec,
      i.Dependency.isSome = true ∧ i.Endpoint = none ∧ i.Container = none) ∧
    IsEmpty { b : P1.BindingSpec // b.HTTP = none ∧ (P1.containerOf b).isSome = true } := by
  refine ⟨⟨fun a b h => ?_, fun t => ⟨⟨t.1, t.2.1, t.2.2⟩, rfl⟩⟩,
          ⟨⟨some ⟨"", none⟩, none, none⟩, rfl, rfl, rfl⟩,
          ⟨⟨none, some ⟨⟨"", ""⟩, none⟩, none⟩, rfl, rfl, rfl⟩,
          ⟨⟨none, none, some ⟨[]⟩⟩, rfl, rfl, rfl⟩, ?_⟩
  · cases a
    cases b
    simpa [implToProd] using h
  · constructor
    rintro ⟨b, h1, h2⟩
    simp [P1.containerOf, h1] at h2

/-- C7 counterexample: serialization does not use the key parameters for the
parameters mapping; the field carries no json tag in any revision, so the wire
key is the Go field name Parameters. -/
theorem c7_parameters_key_counterexample :
    jfield "spec" (marshalAction c7action) = some (marshalActionSpec c7action.Spec) ∧
    jfield "parameters" (marshalActionSpec c7action.Spec) = none ∧
    (jfield "Parameters" (marshalActionSpec c7action.Spec)).isSome = true :=
  ⟨rfl, rfl, rfl⟩

/-- C7 amended: serialization uses exactly the stated wire keys (spec, status,
metadata, url, configMapKeyRef, secretKeyRef, registryKeyRef, dependencies,
binding, meta, schema) except that the untagged parameters mapping serializes
under the key Parameters; shown by computing the full serialization of an
Action populating every field family and of a part_001 ActionSpec populating
the binding field. The contentType key is declared on the part_001 Message, but
no Message value can be built in that revision (see C9), so it is exhibited
nowhere. -/
theorem c7_wire_keys_amended :
    marshalAction c7action = .obj
      [("kind", .str "Action"), ("apiVersion", .str "lb.org/v1"),
       ("metadata", .obj [("name", .str "demo"), ("namespace", .str "ns")]),
       ("spec", .obj
         [("DataShape", .obj [("in", .obj [("registryKeyRef", .str "http://registry/s1")])]),
          ("Parameters", .obj
            [("p", .obj [("name", .str "p"), ("required", .str "true"),
                         ("schema", .obj [("type", .str "string"),
                                          ("configMapKeyRef", .obj [("name", .str "cm"),
                                                                    ("key", .str "k")])])])]),
          ("Endpoint", .obj
            [("url", .str "http://svc/api"),
             ("Parameters", .arr
               [.obj [("name", .str "p"),
                      ("configMapKeyRef", .obj [("name", .str "cm"), ("key", .str "k")]),
                      ("secretKeyRef", .obj [("name", .str "sec"), ("key", .str "sk")]),
                      ("target", .str "query")]])]),
          ("Container", .obj
            [("container", .obj [("name", .str "c"), ("image", .str "img")]),
             ("Parameters", .arr
               [.obj [("name", .str "p"),
                      ("target", .obj [("name", .str "P_ENV"), ("value", .str "v")])]])]),
          ("Dependency", .obj
            [("dependencies", .arr [.obj [("type", .str "library"), ("id", .str "dep1")]])]),
          ("meta", .obj [("Endpoint", .null), ("Container", .null), ("Dependency", .null)])]),
       ("status", .obj [])] ∧
    P1.marshalActionSpec c7p1spec = .obj
      [("Parameters", .null),
       ("binding", .obj
         [("HTTP", .obj [("url", .str "http://svc"), ("Parameters", .null),
                         ("Container", .null)]),
          ("Dependency", .null)])] :=
  ⟨rfl, rfl⟩

end LbDocs
